import Mathlib

/-!
Shallow embedding of the CPU core of the teal-gameboy emulator
(src/gameboy-emu/cpu.ts) and verification of the specification's claims
about it. Machine bytes and words are `Nat`; JavaScript's wrapping
helpers from utils.ts (absent from the provided sources) are modelled
from the specification. Each instruction handler is translated as a pure
function from processor state to processor state, faithful to the
source, including its quirks (operator precedence in the register-pair
setters, the switch fall-through in `setR16`, the double assignment in
`sub`, the unmasked shifts in the rotate handlers).
-/

namespace GB

/-- The flag record `F` of `class CPU` in cpu.ts: zero, negative,
half-carry and carry booleans. -/
structure Flags where
  z : Bool
  n : Bool
  h : Bool
  c : Bool
  deriving DecidableEq

/-- `F.toUint8` from cpu.ts: packs the four flags into bits 7/6/5/4 of a
byte, bits 3-0 zero. -/
def Flags.toUint8 (f : Flags) : Nat :=
  (if f.z then 0x80 else 0) ||| (if f.n then 0x40 else 0) |||
    (if f.h then 0x20 else 0) ||| (if f.c then 0x10 else 0)

/-- Processor state: the data fields of `class CPU` in cpu.ts (the
external MMU reference aside). -/
structure CPU where
  A : Nat
  B : Nat
  C : Nat
  D : Nat
  E : Nat
  H : Nat
  L : Nat
  F : Flags
  SP : Nat
  PC : Nat
  halted : Bool
  stopped : Bool
  jumped : Bool
  ime : Bool
  setIMENext : Bool
  deriving DecidableEq

/-- `enum R8` from cpu.ts: the 8-bit register identifiers. -/
inductive R8 where
  | A | B | C | D | E | H | L
  deriving DecidableEq

/-- `enum R16` from cpu.ts: the 16-bit register-pair identifiers. -/
inductive R16 where
  | AF | BC | DE | HL | SP
  deriving DecidableEq

/-- Modelled from the spec: `uint8` from utils.ts (file absent from the
provided sources); "result wraps modulo 256" (§4.5), over `Int` so that
negative intermediate results wrap as in JavaScript. -/
def uint8 (i : Int) : Nat := (i % 256).toNat

/-- Modelled from the spec: `uint16` from utils.ts (file absent from the
provided sources); PC/SP and pair "wraparound is modulo 2^16" (§3). -/
def uint16 (i : Int) : Nat := (i % 65536).toNat

/-- Modelled from the spec: `addHalfCarriesByte` from utils.ts (absent
from the provided sources); "half-carry = carry out of bit 3 of the low
nibbles (plus any carry-in)" (§4.5). -/
def addHalfCarriesByte (a b carry : Nat) : Bool :=
  decide ((a &&& 0xF) + (b &&& 0xF) + carry > 0xF)

/-- Modelled from the spec: `addCarriesByte` from utils.ts (absent from
the provided sources); "carry = true iff the unsigned sum exceeds 255"
(§4.5). -/
def addCarriesByte (a b : Nat) : Bool :=
  decide (a + b > 255)

/-- Modelled from the spec: `subHalfCarriesByte` from utils.ts (absent
from the provided sources); "half-carry = borrow out of bit 4 of the low
nibble comparison" (§4.5). -/
def subHalfCarriesByte (a b carry : Nat) : Bool :=
  decide ((a &&& 0xF) < (b &&& 0xF) + carry)

def CPU.getR8 (cpu : CPU) (r : R8) : Nat :=
  match r with
  | .A => cpu.A
  | .B => cpu.B
  | .C => cpu.C
  | .D => cpu.D
  | .E => cpu.E
  | .H => cpu.H
  | .L => cpu.L

def CPU.setR8 (cpu : CPU) (r : R8) (val : Nat) : CPU :=
  match r with
  | .A => { cpu with A := val }
  | .B => { cpu with B := val }
  | .C => { cpu with C := val }
  | .D => { cpu with D := val }
  | .E => { cpu with E := val }
  | .H => { cpu with H := val }
  | .L => { cpu with L := val }

/-- `getAF` from cpu.ts: `(A << 8) | F.toUint8()`. -/
def CPU.getAF (cpu : CPU) : Nat := (cpu.A <<< 8) ||| cpu.F.toUint8

/-- `getBC` from cpu.ts: `(B << 8) | C`. -/
def CPU.getBC (cpu : CPU) : Nat := (cpu.B <<< 8) ||| cpu.C

def CPU.getDE (cpu : CPU) : Nat := (cpu.D <<< 8) ||| cpu.E

def CPU.getHL (cpu : CPU) : Nat := (cpu.H <<< 8) ||| cpu.L

/-- `setBC` from cpu.ts: `B = word & 0xFF00 >> 8; C = word & 0x00FF`.
JavaScript's shift binds tighter than its bitwise AND, so the first line
computes `word & (0xFF00 >> 8)`, i.e. `word & 0xFF` — the LOW byte goes
into B. Translated with that parse preserved. -/
def CPU.setBC (cpu : CPU) (word : Nat) : CPU :=
  { cpu with B := word &&& (0xFF00 >>> 8), C := word &&& 0x00FF }

def CPU.setDE (cpu : CPU) (word : Nat) : CPU :=
  { cpu with D := word &&& (0xFF00 >>> 8), E := word &&& 0x00FF }

def CPU.setHL (cpu : CPU) (word : Nat) : CPU :=
  { cpu with H := word &&& (0xFF00 >>> 8), L := word &&& 0x00FF }

def CPU.getR16 (cpu : CPU) (r : R16) : Nat :=
  match r with
  | .AF => cpu.getAF
  | .BC => cpu.getBC
  | .DE => cpu.getDE
  | .HL => cpu.getHL
  | .SP => cpu.SP

/-- `setR16` from cpu.ts. The `case R16.AF` arm only calls
`console.warn("set AF not implemented")` and, lacking a `return`, falls
through to the BC arm, so an AF write actually writes BC. -/
def CPU.setR16 (cpu : CPU) (r : R16) (val : Nat) : CPU :=
  match r with
  | .AF => cpu.setBC val
  | .BC => cpu.setBC val
  | .DE => cpu.setDE val
  | .HL => cpu.setHL val
  | .SP => { cpu with SP := val }

/-- `inc_r8` from cpu.ts (INC r8 [z0h-]). -/
def CPU.inc_r8 (cpu : CPU) (r : R8) : CPU :=
  let val := cpu.getR8 r
  let newVal := uint8 (val + 1)
  let cpu := cpu.setR8 r newVal
  { cpu with
    F := { cpu.F with z := newVal == 0, n := false, h := addHalfCarriesByte val 1 0 } }

/-- `dec_r8` from cpu.ts (DEC r8 [z1h-]). -/
def CPU.dec_r8 (cpu : CPU) (r : R8) : CPU :=
  let val := cpu.getR8 r
  let newVal := uint8 (val - 1)
  let cpu := cpu.setR8 r newVal
  { cpu with
    F := { cpu.F with z := newVal == 0, n := true, h := subHalfCarriesByte val 1 0 } }

/-- `inc_r16` from cpu.ts (INC r16 [----]): `setR16(reg16, getR16(reg16) + 1)`.
Unlike `dec_r16`, the source applies no `uint16` wrap here. -/
def CPU.inc_r16 (cpu : CPU) (r : R16) : CPU :=
  cpu.setR16 r (cpu.getR16 r + 1)

/-- `dec_r16` from cpu.ts (DEC r16 [----]): wraps through `uint16`. -/
def CPU.dec_r16 (cpu : CPU) (r : R16) : CPU :=
  cpu.setR16 r (uint16 ((cpu.getR16 r : Int) - 1))

/-- `rlc_A` from cpu.ts (RLCA [000c]). The source shifts `A << 1`
without masking, so when bit 7 was set the stored value keeps it as a
ninth bit. -/
def CPU.rlc_A (cpu : CPU) : CPU :=
  let carry := cpu.A &&& 0x80 != 0
  let cpu :=
    if carry then
      { cpu with A := (cpu.A <<< 1) ||| 0x01, F := { cpu.F with c := true } }
    else
      { cpu with A := cpu.A <<< 1, F := { cpu.F with c := false } }
  { cpu with F := { cpu.F with z := false, n := false, h := false } }

/-- `rrc_A` from cpu.ts (RRCA [000c]). -/
def CPU.rrc_A (cpu : CPU) : CPU :=
  let carry := cpu.A &&& 0x01 != 0
  let cpu :=
    if carry then
      { cpu with A := (cpu.A >>> 1) ||| 0x80, F := { cpu.F with c := true } }
    else
      { cpu with A := cpu.A >>> 1, F := { cpu.F with c := false } }
  { cpu with F := { cpu.F with z := false, n := false, h := false } }

/-- `rl_A` from cpu.ts (RLA [000c]): unmasked `A << 1` with the old
carry into bit 0, bit 7 into the carry. -/
def CPU.rl_A (cpu : CPU) : CPU :=
  let oldCarry : Nat := if cpu.F.c then 1 else 0
  let newC := cpu.A &&& 0x80 != 0
  { cpu with
    A := (cpu.A <<< 1) ||| oldCarry,
    F := { cpu.F with z := false, n := false, h := false, c := newC } }

/-- `rr_A` from cpu.ts (RRA [000c]). -/
def CPU.rr_A (cpu : CPU) : CPU :=
  let oldCarry : Nat := if cpu.F.c then 1 else 0
  let newC := cpu.A &&& 0x01 != 0
  { cpu with
    A := (cpu.A >>> 1) ||| (oldCarry <<< 7),
    F := { cpu.F with z := false, n := false, h := false, c := newC } }

/-- `add` from cpu.ts (ADD A [z0hc]). -/
def CPU.add (cpu : CPU) (byte : Nat) : CPU :=
  let oldA := cpu.A
  let A' := uint8 (cpu.A + byte)
  { cpu with
    A := A',
    F := { z := A' == 0, n := false,
           h := addHalfCarriesByte oldA byte 0, c := addCarriesByte oldA byte } }

/-- `adc` from cpu.ts (ADC A [z0hc]). -/
def CPU.adc (cpu : CPU) (val : Nat) : CPU :=
  let carry : Nat := if cpu.F.c then 1 else 0
  let oldA := cpu.A
  let A' := uint8 (cpu.A + val + carry)
  { cpu with
    A := A',
    F := { z := A' == 0, n := false,
           h := addHalfCarriesByte oldA val carry, c := addCarriesByte oldA (val + carry) } }

/-- `sub` from cpu.ts (SUB A [z1hc]). The source assigns `F.n = true`
and then immediately `F.n = subHalfCarriesByte(oldA, val)`, so the
half-borrow overwrites the negative flag and `F.h` is never assigned;
translated with that net effect preserved. -/
def CPU.sub (cpu : CPU) (val : Nat) : CPU :=
  let oldA := cpu.A
  let A' := uint8 ((oldA : Int) - val)
  { cpu with
    A := A',
    F := { cpu.F with
             z := A' == 0,
             n := subHalfCarriesByte oldA val 0,
             c := decide ((oldA : Int) - val < 0) } }

/-- `and` from cpu.ts (AND A [z010]). -/
def CPU.and (cpu : CPU) (val : Nat) : CPU :=
  let A' := cpu.A &&& val
  { cpu with A := A', F := { z := A' == 0, n := false, h := true, c := false } }

/-- `xor` from cpu.ts (XOR A [z010]). The source's body computes
`this.A = this.A | val` — a bitwise OR, not XOR — and sets `F.h = true`;
translated as written. -/
def CPU.xor (cpu : CPU) (val : Nat) : CPU :=
  let A' := cpu.A ||| val
  { cpu with A := A', F := { z := A' == 0, n := false, h := true, c := false } }

/-- `or` from cpu.ts (OR A [z000]). -/
def CPU.or (cpu : CPU) (val : Nat) : CPU :=
  let A' := cpu.A ||| val
  { cpu with A := A', F := { z := A' == 0, n := false, h := false, c := false } }

/-- `daa` from cpu.ts (DAA [z-0c]). -/
def CPU.daa (cpu : CPU) : CPU :=
  let u : Nat :=
    if cpu.F.h || (!cpu.F.n && (cpu.A &&& 0x0F) > 0x09) then 0x06 else 0
  let adjHigh := cpu.F.c || (!cpu.F.n && cpu.A > 0x99)
  let u := if adjHigh then u ||| 0x60 else u
  let fc := if adjHigh then true else cpu.F.c
  let A' := if cpu.F.n then uint8 ((cpu.A : Int) - u) else uint8 (cpu.A + u)
  { cpu with A := A', F := { cpu.F with c := fc, z := A' == 0, h := false } }

/-- Modelled from the spec: the `execute` dispatcher body called by
`step` in cpu.ts but defined outside the provided sources. Per §4.2 it
invokes the handler matching the opcode; only the two instructions claim
C9 exercises are modelled. EI (0xFB) "sets a pending flag" (§4.10) —
the `setIMENext` field, whose cpu.ts comment reads "Set IME on next
instruction; used by Ei() command" — and NOP (0x00) does nothing; each
advances PC past its one-byte encoding. -/
def CPU.execute (cpu : CPU) (opcode : Nat) : CPU :=
  if opcode == 0xFB then
    { cpu with setIMENext := true, PC := uint16 (cpu.PC + 1) }
  else
    { cpu with PC := uint16 (cpu.PC + 1) }

/-- `step` from cpu.ts, restricted to its processor-state effects:
clear `jumped`, fetch the opcode at PC (consuming a 0xCB escape byte if
present), run `execute`. The cycle-count lookup in the external opcode
tables reads no processor state and is omitted. Note that the source's
`step` never reads `setIMENext` and never assigns `ime`. -/
def CPU.step (mem : Nat → Nat) (cpu : CPU) : CPU :=
  let cpu := { cpu with jumped := false }
  let opcode := mem cpu.PC
  if opcode == 0xCB then
    let cpu := { cpu with PC := cpu.PC + 1 }
    cpu.execute (mem cpu.PC)
  else
    cpu.execute opcode

/-- A freshly constructed CPU: every field zero/false, matching the
field initialisers of `class CPU` in cpu.ts. -/
def CPU.init : CPU :=
  { A := 0, B := 0, C := 0, D := 0, E := 0, H := 0, L := 0,
    F := ⟨false, false, false, false⟩,
    SP := 0, PC := 0,
    halted := false, stopped := false, jumped := false,
    ime := false, setIMENext := false }

/-- All four flags set, used to observe flag preservation. -/
def allFlags : Flags := ⟨true, true, true, true⟩

/-- Memory image for claim C9: EI (0xFB) at address 0, NOP (0x00)
everywhere after it. -/
def memEiNop : Nat → Nat := fun a => if a == 0 then 0xFB else 0x00

/-- Claim C1: writing v to a register pair should store `(v>>8)&0xFF`
in the first register and `v&0xFF` in the second, so that reading the
pair returns v. The source's `setBC`/`setDE`/`setHL` compute
`word & (0xFF00 >> 8)` = `word & 0xFF` for the first register, so
writing 0x1234 stores B = 0x34 (not 0x12) and BC reads back 0x3434,
and likewise through `setR16`. -/
theorem C1_setBC_failing :
    (CPU.init.setBC 0x1234).B = 0x34 ∧
    (CPU.init.setBC 0x1234).getBC = 0x3434 ∧
    (CPU.init.setDE 0x1234).getDE = 0x3434 ∧
    (CPU.init.setHL 0x1234).getHL = 0x3434 ∧
    (CPU.init.setR16 R16.BC 0x1234).getR16 R16.BC ≠ 0x1234 := by
  decide

/-- Claim C2: writing 0xABCD to AF should set A := 0xAB and load the
four flags from 0xCD. In the source, `setR16`'s AF arm only logs a
warning and falls through to the BC arm: A and the flags are untouched
and B, C are clobbered with the low byte. -/
theorem C2_setAF_failing :
    (({ CPU.init with A := 0x11 }).setR16 R16.AF 0xABCD).A = 0x11 ∧
    (({ CPU.init with A := 0x11 }).setR16 R16.AF 0xABCD).F = CPU.init.F ∧
    (({ CPU.init with A := 0x11 }).setR16 R16.AF 0xABCD).B = 0xCD ∧
    (({ CPU.init with A := 0x11 }).setR16 R16.AF 0xABCD).C = 0xCD := by
  decide

/-- Claim C3: after `sub` the negative flag should be unconditionally
true. The source overwrites `F.n` with the half-borrow boolean (and
never assigns `F.h`): subtracting 0x01 from A = 0x05 has no low-nibble
borrow, so the negative flag ends up false, while the accumulator and
carry are as the claim says. -/
theorem C3_sub_failing :
    ((({ CPU.init with A := 0x05 }).sub 0x01).F.n = false) ∧
    ((({ CPU.init with A := 0x05 }).sub 0x01).A = 0x04) ∧
    ((({ CPU.init with A := 0x05 }).sub 0x01).F.c = false) := by
  decide

/-- Claim C4: `xor` should store the bitwise XOR and clear the
half-carry flag. The source's body computes a bitwise OR and sets the
half-carry flag true: with A = 0xFF and operand 0xFF the claim requires
A = 0x00, h = false, but the code yields A = 0xFF, h = true. -/
theorem C4_xor_failing :
    ((({ CPU.init with A := 0xFF }).xor 0xFF).A = 0xFF) ∧
    ((({ CPU.init with A := 0xFF }).xor 0xFF).F.h = true) := by
  decide

/-- Claim C7: 16-bit increment and decrement should wrap modulo 65536
and leave the flags unchanged. `dec_r16` wraps (0x0000 → 0xFFFF, on SP
and on the pairs) and neither handler touches the flags, but `inc_r16`
omits the `uint16` wrap, so incrementing SP = 0xFFFF stores 0x10000
instead of 0x0000. -/
theorem C7_inc_r16_SP_failing :
    ((({ CPU.init with SP := 0xFFFF }).inc_r16 R16.SP).SP = 0x10000) ∧
    ((({ CPU.init with SP := 0 }).dec_r16 R16.SP).SP = 0xFFFF) ∧
    ((({ CPU.init with SP := 0xFFFF, F := allFlags }).inc_r16 R16.SP).F = allFlags) ∧
    ((({ CPU.init with SP := 0, F := allFlags }).dec_r16 R16.SP).F = allFlags) := by
  decide

/-- Claim C9: executing EI should set only the pending flag, which the
start of the next `step` call promotes into IME, so IME is true after
the following instruction. In the source, `step` never reads
`setIMENext`: after EI (which sets the pending flag, IME still false)
and then a NOP, IME remains false, where the claim requires true. -/
theorem C9_ime_never_promoted :
    ((CPU.step memEiNop CPU.init).setIMENext = true) ∧
    ((CPU.step memEiNop CPU.init).ime = false) ∧
    ((CPU.step memEiNop (CPU.step memEiNop CPU.init)).setIMENext = true) ∧
    ((CPU.step memEiNop (CPU.step memEiNop CPU.init)).ime = false) := by
  decide

/-- Claim C10: every handler should keep the 8-bit registers within
[0,255] and SP/PC within [0,65535]. The accumulator rotates shift
without masking and `inc_r16` does not wrap: from A = 0x80 (in range),
`rlc_A` leaves A = 0x101 and `rl_A` leaves A = 0x100, both exceeding
255, and from SP = 0xFFFF, `inc_r16` leaves SP = 0x10000. -/
theorem C10_width_invariant_failing :
    ((({ CPU.init with A := 0x80 }).rlc_A).A = 0x101) ∧
    (255 < (({ CPU.init with A := 0x80 }).rlc_A).A) ∧
    ((({ CPU.init with A := 0x80 }).rl_A).A = 0x100) ∧
    ((({ CPU.init with SP := 0xFFFF }).inc_r16 R16.SP).SP = 0x10000) := by
  decide

/-- Claim C5: for all bytes a, b the add handler stores `(a+b) mod 256`
in the accumulator, carry iff `a+b > 255`, half-carry iff
`(a&0xF)+(b&0xF) > 0xF`, zero iff the wrapped result is 0, and negative
false. Holds in the source's `add`. -/
theorem C5_add_correct (s : CPU) (b : Nat) (ha : s.A ≤ 255) (hb : b ≤ 255) :
    (s.add b).A = (s.A + b) % 256 ∧
    ((s.add b).F.c = true ↔ 255 < s.A + b) ∧
    ((s.add b).F.h = true ↔ 0xF < (s.A &&& 0xF) + (b &&& 0xF)) ∧
    ((s.add b).F.z = true ↔ (s.A + b) % 256 = 0) ∧
    (s.add b).F.n = false := by
  refine ⟨?_, ?_, ?_, ?_, ?_⟩
  · simp only [CPU.add, uint8]
    omega
  · simp [CPU.add, addCarriesByte]
  · simp [CPU.add, addHalfCarriesByte]
  · simp only [CPU.add, uint8, beq_iff_eq]
    omega
  · simp [CPU.add]

theorem C5_add_correct_witness :
    (({ CPU.init with A := 0x3C }).add 0x2E).A = (({ CPU.init with A := 0x3C }).A + 0x2E) % 256 ∧
    ((({ CPU.init with A := 0x3C }).add 0x2E).F.c = true ↔ 255 < ({ CPU.init with A := 0x3C }).A + 0x2E) ∧
    ((({ CPU.init with A := 0x3C }).add 0x2E).F.h = true ↔ 0xF < (({ CPU.init with A := 0x3C }).A &&& 0xF) + (0x2E &&& 0xF)) ∧
    ((({ CPU.init with A := 0x3C }).add 0x2E).F.z = true ↔ (({ CPU.init with A := 0x3C }).A + 0x2E) % 256 = 0) ∧
    (({ CPU.init with A := 0x3C }).add 0x2E).F.n = false :=
  C5_add_correct { CPU.init with A := 0x3C } 0x2E (by decide) (by decide)

set_option maxRecDepth 100000 in
set_option maxHeartbeats 4000000 in
/-- Claim C6: for packed-BCD operands `16*hx+lx` and `16*hy+ly` (each
nibble 0-9), running `add` and then `daa` leaves the packed-BCD
encoding of the decimal sum modulo 100 in the accumulator and sets the
carry flag exactly when the decimal sum exceeds 99. Holds in the
source's `add`/`daa`. -/
theorem C6_daa_bcd (hx : Nat) (h1 : hx < 10) (lx : Nat) (h2 : lx < 10)
    (hy : Nat) (h3 : hy < 10) (ly : Nat) (h4 : ly < 10) :
    ((({ CPU.init with A := 16 * hx + lx }).add (16 * hy + ly)).daa).A
      = 16 * (((10 * hx + lx + (10 * hy + ly)) / 10) % 10)
          + (10 * hx + lx + (10 * hy + ly)) % 10 ∧
    (((({ CPU.init with A := 16 * hx + lx }).add (16 * hy + ly)).daa).F.c = true
      ↔ 99 < 10 * hx + lx + (10 * hy + ly)) := by
  revert hx h1 lx h2 hy h3 ly h4
  decide

theorem C6_daa_bcd_witness :
    ((({ CPU.init with A := 16 * 9 + 9 }).add (16 * 9 + 9)).daa).A
      = 16 * (((10 * 9 + 9 + (10 * 9 + 9)) / 10) % 10)
          + (10 * 9 + 9 + (10 * 9 + 9)) % 10 ∧
    (((({ CPU.init with A := 16 * 9 + 9 }).add (16 * 9 + 9)).daa).F.c = true
      ↔ 99 < 10 * 9 + 9 + (10 * 9 + 9)) :=
  C6_daa_bcd 9 (by decide) 9 (by decide) 9 (by decide) 9 (by decide)

/-- Claim C8 (as stated): rotate-left-circular then
rotate-right-circular restores the accumulator AND the carry flag, for
every starting carry. Counterexample: A = 0x00 with carry = true; the
round trip restores A but leaves carry = false. -/
theorem C8_carry_not_restored :
    (({ CPU.init with F := ⟨false, false, false, true⟩ }).rlc_A.rrc_A).F.c = false ∧
    ({ CPU.init with F := ⟨false, false, false, true⟩ }).F.c = true ∧
    (({ CPU.init with F := ⟨false, false, false, true⟩ }).rlc_A.rrc_A).A = 0 ∧
    ({ CPU.init with F := ⟨false, false, false, true⟩ }).A = 0 := by
  decide

set_option maxRecDepth 100000 in
/-- Claim C8 (amended): for every starting accumulator in [0,255] and
every starting flag state, `rlc_A` then `rrc_A` restores the
accumulator, and the final carry flag equals bit 7 of the original
accumulator — so the original carry is restored exactly when it equals
that bit, not for every starting carry value. -/
theorem C8_rlc_rrc_amended (a : Nat) (ha : a < 256) (f : Flags) :
    ((({ CPU.init with A := a, F := f }).rlc_A.rrc_A).A = a) ∧
    ((({ CPU.init with A := a, F := f }).rlc_A.rrc_A).F.c = decide (a &&& 0x80 = 0x80)) := by
  obtain ⟨z0, n0, h0, c0⟩ := f
  cases z0 <;> cases n0 <;> cases h0 <;> cases c0 <;> (revert a; decide)

theorem C8_rlc_rrc_amended_witness :
    ((({ CPU.init with A := 0x80, F := allFlags }).rlc_A.rrc_A).A = 0x80) ∧
    ((({ CPU.init with A := 0x80, F := allFlags }).rlc_A.rrc_A).F.c = decide (0x80 &&& 0x80 = 0x80)) :=
  C8_rlc_rrc_amended 0x80 (by decide) allFlags

end GB
